import Mathlib

/-!
Formal model of the IoT event ingestion and alerting system: a shallow
embedding of the ingestion-side validators (discriminated event schemas,
device/event cross-check, photo base64 validation, broker publisher) and of
the alerting-side decision engine (access-control, radar-speed and
intrusion rules, cache/directory lookups, alert persistence), with theorems
checking the specification's claims against the embedded code.
-/

/-- Subset of Python runtime values appearing in event `data` payloads.
Numbers are modelled as rationals (`int`/`float`); note that Python `bool`
is a subclass of `int`, which is modelled separately by `pyToNum`. -/
inductive PyValue where
  | str (s : String)
  | num (q : ℚ)
  | bool (b : Bool)
  | dt (year month day hour minute : Nat)
  | null
deriving DecidableEq

/-- Python `datetime` as far as the code uses it: calendar fields plus the
`.hour` attribute read by `AlertProcessor._is_after_hours`. -/
structure PyDatetime where
  year : Nat
  month : Nat
  day : Nat
  hour : Nat
  minute : Nat
deriving DecidableEq

/-- Python truthiness (`if not x`) for the modelled values. -/
def pyTruthy : PyValue → Bool
  | .str s => !(s == "")
  | .num q => !(q == 0)
  | .bool b => b
  | .dt _ _ _ _ _ => true
  | .null => false

/-- `isinstance(v, (int, float))` combined with numeric coercion: Python
`bool` is an `int` subclass, so `True`/`False` count as `1`/`0`. -/
def pyToNum : PyValue → Option ℚ
  | .num q => some q
  | .bool b => some (if b then 1 else 0)
  | _ => none

/-- `d.get(k)` / `k in d` on a Python dict modelled as an association list
with distinct keys. -/
def plookup (k : String) (d : List (String × PyValue)) : Option PyValue :=
  (d.find? (fun p => p.1 == k)).map Prod.snd

/-- `needle` occurs contiguously inside `hay`. -/
def listContains : List Char → List Char → Bool
  | n, [] => n.isEmpty
  | n, c :: t => n.isPrefixOf (c :: t) || listContains n t

/-- Python substring test `needle in hay` on strings. -/
def pyInStr (needle hay : String) : Bool :=
  listContains needle.toList hay.toList

/-- ASCII hex digit, as accepted by the MAC regex `[0-9A-Fa-f]`. -/
def isHexDigit (c : Char) : Bool :=
  (('0' ≤ c) && (c ≤ '9')) || (('A' ≤ c) && (c ≤ 'F')) || (('a' ≤ c) && (c ≤ 'f'))

/-- The MAC regex `^([0-9A-Fa-f]{2}:){5}([0-9A-Fa-f]{2})$` (shared by
`ingestion_service/app/schemas/common.py` and
`alerting_service/app/schemas/alert.py`): exactly six colon-separated
pairs of hex digits. -/
def macValid (s : String) : Bool :=
  match s.toList with
  | [a, b, ':', c, d, ':', e, f, ':', g, h, ':', i, j, ':', k, l] =>
    isHexDigit a && isHexDigit b && isHexDigit c && isHexDigit d &&
    isHexDigit e && isHexDigit f && isHexDigit g && isHexDigit h &&
    isHexDigit i && isHexDigit j && isHexDigit k && isHexDigit l
  | _ => false

/-- Python `str.upper()` (character-wise ASCII uppercase; the MAC regex
restricts inputs to hex digits and colons, on which this is exact). -/
def pyUpper (s : String) : String := String.mk (s.toList.map Char.toUpper)

/-- `validate_mac_address` from `alerting_service/app/schemas/alert.py`:
reject empty / non-matching strings, normalize to uppercase. -/
def validate_mac_address (value : String) : Except String String :=
  if value == "" then .error "MAC address must be a non-empty string"
  else if !(macValid value) then
    .error "Invalid MAC address format. Expected format: XX:XX:XX:XX:XX:XX"
  else .ok (pyUpper value)

/-- The closed alert-type vocabulary of the `Literal` on
`AlertBase.alert_type`. -/
def alertTypes : List String :=
  ["unauthorized_access", "speed_violation", "intrusion_detection"]

/-- The pydantic `AlertCreate` model from
`alerting_service/app/schemas/alert.py`: its declared fields are exactly
`device_id`, `alert_type`, `timestamp` (from `AlertBase`) and `event_id`.
It declares no `photo_base64` field. -/
structure AlertCreate where
  event_id : Option Int
  device_id : String
  alert_type : String
  timestamp : PyDatetime
deriving DecidableEq

/-- Constructing an `AlertCreate`: pydantic validates `device_id` with the
MAC validator (raising on failure, normalizing to uppercase) and checks the
`alert_type` literal.  The model's config leaves `extra` at the pydantic
default `ignore`, so the `photo_kwarg` keyword passed by
`AlertProcessor._process_intrusion_detection_event` matches no declared
field and is silently dropped. -/
def mkAlertCreate (event_id : Option Int) (device_id : String)
    (alert_type : String) (timestamp : PyDatetime)
    (_photo_kwarg : Option PyValue) : Except String AlertCreate :=
  match validate_mac_address device_id with
  | .error e => .error e
  | .ok did =>
    if alertTypes.contains alert_type then
      .ok ⟨event_id, did, alert_type, timestamp⟩
    else .error "Input should be a valid alert_type literal"

/-- `EventReceived` from `alerting_service/app/schemas/event.py`: the bus
message consumed by the alerting service (no field-level validation beyond
types). -/
structure EventReceived where
  id : Int
  device_id : String
  sensor_id : Int
  timestamp : PyDatetime
  event_type : String
  data : Option (List (String × PyValue))

/-- State of the Redis-backed authorized-user cache: the cached member
set, plus a flag modelling that every Redis call raises (cache outage). -/
structure CacheState where
  users : List PyValue
  down : Bool
deriving DecidableEq

/-- `CacheService.is_user_authorized`: `sismember` on the cached set; any
exception is caught, logged and turned into `False`. -/
def cache_is_user_authorized (c : CacheState) (u : PyValue) : Bool :=
  if c.down then false else c.users.contains u

/-- `CacheService.add_authorized_user`: `sadd` plus TTL refresh; any
exception is caught and logged, leaving the cache unchanged. -/
def cache_add_authorized_user (c : CacheState) (u : PyValue) : CacheState :=
  if c.down then c else ⟨u :: c.users, c.down⟩

/-- `CRUDAuthorizedUser.is_user_authorized`: membership in the durable
authorized-user directory. -/
def db_is_user_authorized (db : List PyValue) (u : PyValue) : Bool :=
  db.contains u

/-- `Settings.SPEED_VIOLATION_THRESHOLD` default from
`alerting_service/app/core/config.py`. -/
def SPEED_VIOLATION_THRESHOLD : Int := 90

/-- Result of one access-control evaluation: the engine's outcome (an
exception, or an optional alert), the cache state after the evaluation, and
whether the durable directory was queried. -/
structure AccessResult where
  alert : Except String (Option AlertCreate)
  cache : CacheState
  dbQueried : Bool

/-- `AlertProcessor._process_access_control_event`: skip when `data` is
falsy or lacks `user_id`; cache hit means no alert and no directory query;
on a miss consult the directory, read-repairing the cache when it says
authorized; otherwise build an `unauthorized_access` alert. -/
def process_access_control (ev : EventReceived) (cache : CacheState)
    (db : List PyValue) : AccessResult :=
  match ev.data with
  | none => ⟨.ok none, cache, false⟩
  | some d =>
    if d.isEmpty then ⟨.ok none, cache, false⟩
    else
      match plookup "user_id" d with
      | none => ⟨.ok none, cache, false⟩
      | some uid =>
        if cache_is_user_authorized cache uid then ⟨.ok none, cache, false⟩
        else if db_is_user_authorized db uid then
          ⟨.ok none, cache_add_authorized_user cache uid, true⟩
        else
          match mkAlertCreate (some ev.id) ev.device_id "unauthorized_access"
              ev.timestamp none with
          | .error e => ⟨.error e, cache, true⟩
          | .ok a => ⟨.ok (some a), cache, true⟩

/-- `AlertProcessor._process_radar_speed_event`: skip when `data` is falsy
or lacks `speed_kmh`; skip when the value is not an `int`/`float` (Python
`bool` passes `isinstance`) or is at most the threshold; otherwise build a
`speed_violation` alert. -/
def process_radar_speed (threshold : Int) (ev : EventReceived) :
    Except String (Option AlertCreate) :=
  match ev.data with
  | none => .ok none
  | some d =>
    if d.isEmpty then .ok none
    else
      match plookup "speed_kmh" d with
      | none => .ok none
      | some v =>
        match pyToNum v with
        | none => .ok none
        | some q =>
          if q ≤ (threshold : ℚ) then .ok none
          else
            (mkAlertCreate (some ev.id) ev.device_id "speed_violation"
              ev.timestamp none).map some

/-- The fixed restricted-zone name list of
`AlertProcessor._is_restricted_area`. -/
def restrictedZones : List String :=
  ["Restricted Area", "Secure Zone", "Private Area", "Classified Zone"]

/-- `AlertProcessor._is_restricted_area`: Python `restricted in zone`
substring containment against the closed list; a non-string zone raises
`TypeError` (caught by the top-level handler). -/
def is_restricted_area (zone : PyValue) : Except String Bool :=
  match zone with
  | .str z => .ok (restrictedZones.any (fun r => pyInStr r z))
  | _ => .error "TypeError: argument is not iterable"

/-- `AlertProcessor._is_after_hours`: `hour >= 18 or hour < 6`. -/
def is_after_hours (t : PyDatetime) : Bool :=
  (18 ≤ t.hour : Bool) || (t.hour < 6 : Bool)

/-- `AlertProcessor._process_intrusion_detection_event`: skip when `data`
is falsy or lacks `zone`; both gates (restricted zone, after hours) must
pass; a falsy `photo_base64` (absent via `.get`, or empty) skips; otherwise
build an `intrusion_detection` alert, passing the photo as a keyword. -/
def process_intrusion (ev : EventReceived) :
    Except String (Option AlertCreate) :=
  match ev.data with
  | none => .ok none
  | some d =>
    if d.isEmpty then .ok none
    else
      match plookup "zone" d with
      | none => .ok none
      | some zone =>
        match is_restricted_area zone with
        | .error e => .error e
        | .ok false => .ok none
        | .ok true =>
          if !(is_after_hours ev.timestamp) then .ok none
          else
            match plookup "photo_base64" d with
            | none => .ok none
            | some p =>
              if !(pyTruthy p) then .ok none
              else
                (mkAlertCreate (some ev.id) ev.device_id "intrusion_detection"
                  ev.timestamp (some p)).map some

/-- Result of `AlertProcessor.process_event`: optional alert to create,
cache state afterwards, and whether the directory was queried. -/
structure ProcessResult where
  alert : Option AlertCreate
  cache : CacheState
  dbQueried : Bool

/-- `AlertProcessor.process_event`: dispatch on `event_type`; unknown types
yield no alert; the top-level `except Exception` turns any evaluation
exception into "no alert" (cache effects that already happened persist). -/
def process_event (threshold : Int) (ev : EventReceived) (cache : CacheState)
    (db : List PyValue) : ProcessResult :=
  if ev.event_type == "access_attempt" then
    let r := process_access_control ev cache db
    match r.alert with
    | .ok a => ⟨a, r.cache, r.dbQueried⟩
    | .error _ => ⟨none, r.cache, r.dbQueried⟩
  else if ev.event_type == "speed_violation" then
    match process_radar_speed threshold ev with
    | .ok a => ⟨a, cache, false⟩
    | .error _ => ⟨none, cache, false⟩
  else if ev.event_type == "motion_detected" then
    match process_intrusion ev with
    | .ok a => ⟨a, cache, false⟩
    | .error _ => ⟨none, cache, false⟩
  else ⟨none, cache, false⟩

/-- A persisted row of the `Alert` table
(`alerting_service/app/models/models.py`), which does declare a nullable
`photo_base64` column. -/
structure AlertRow where
  id : Int
  event_id : Option Int
  device_id : String
  alert_type : String
  timestamp : PyDatetime
  photo_base64 : Option String
deriving DecidableEq

/-- Attribute access `obj_in.photo_base64` on an `AlertCreate` instance:
the pydantic model declares no `photo_base64` field (and `extra` is the
default `ignore`, so no extra attribute is stored either), hence the access
raises `AttributeError`. -/
def alertCreate_photo_attr (_a : AlertCreate) : Except String (Option String) :=
  .error "AttributeError: AlertCreate object has no attribute photo_base64"

/-- `CRUDAlert.create`: builds the `Alert` row from the `AlertCreate`
fields, reading `obj_in.photo_base64` for the photo column. -/
def crud_alert_create (nextId : Int) (a : AlertCreate) :
    Except String AlertRow :=
  match alertCreate_photo_attr a with
  | .error e => .error e
  | .ok p => .ok ⟨nextId, a.event_id, a.device_id, a.alert_type, a.timestamp, p⟩

/-- Abstract state of `MessageQueueService`: whether `self.channel` /
`self.exchange` are initialized, whether a `connect()` attempt would
succeed, and whether an `exchange.publish` call would succeed. -/
structure MQState where
  channelInit : Bool
  connectOk : Bool
  publishOk : Bool
deriving DecidableEq

/-- `MessageQueueService.connect`: on success the channel and exchange are
initialized; on failure the exception is logged and re-raised. -/
def mq_connect (s : MQState) : Except String MQState :=
  if s.connectOk then .ok ⟨true, s.connectOk, s.publishOk⟩
  else .error "Failed to connect to RabbitMQ"

/-- Whether the publish attempt delivered the message to the broker or
failed with the exception swallowed by the surrounding `try/except`. -/
inductive PubOutcome where
  | published
  | failedSwallowed
deriving DecidableEq

/-- The `try: await self.exchange.publish(...) except Exception: log` block
of `MessageQueueService.publish_event`: a failing publish is logged and the
exception is swallowed. -/
def mq_publish_attempt (s : MQState) : Except String (MQState × PubOutcome) :=
  if s.publishOk then .ok (s, .published) else .ok (s, .failedSwallowed)

/-- `MessageQueueService.publish_event`: if the channel or exchange is not
initialized, attempt one reconnect (whose exception propagates), re-check,
and raise `ConnectionError` if still uninitialized; then attempt the
publish, swallowing any publish exception. -/
def publish_event (s : MQState) : Except String (MQState × PubOutcome) :=
  if !s.channelInit then
    match mq_connect s with
    | .error e => .error e
    | .ok s' =>
      if !s'.channelInit then
        .error "ConnectionError: RabbitMQ connection failed, cannot publish event."
      else mq_publish_attempt s'
  else mq_publish_attempt s

/-- The pydantic `EventCreateInternal` model from
`ingestion_service/app/schemas/event.py`: its declared fields are exactly
`timestamp`, `event_type`, `data` and `sensor_id`.  It declares no
`device_id` field. -/
structure EventCreateInternal where
  timestamp : PyDatetime
  event_type : String
  data : Option (List (String × PyValue))
  sensor_id : Int
deriving DecidableEq

/-- Constructing an `EventCreateInternal` as the endpoint does, passing a
`device_id` keyword: the model declares no such field and its config leaves
`extra` at the pydantic default `ignore`, so the keyword is silently
dropped. -/
def mkEventCreateInternal (_device_id : String) (timestamp : PyDatetime)
    (event_type : String) (data : Option (List (String × PyValue)))
    (sensor_id : Int) : EventCreateInternal :=
  ⟨timestamp, event_type, data, sensor_id⟩

/-- A persisted row of the `Event` table
(`ingestion_service/app/models/models.py`): columns `id`, `sensor_id`,
`timestamp`, `event_type`, `data`.  The model has no `device_id` column —
`Event.device_id` is a read-only property derived from the sensor
relationship. -/
structure EventRow where
  id : Int
  sensor_id : Int
  timestamp : PyDatetime
  event_type : String
  data : Option (List (String × PyValue))
deriving DecidableEq

/-- Attribute access `obj_in.device_id` on an `EventCreateInternal`
instance: the model declares no `device_id` field (and the dropped extra
keyword is not stored), so the access raises `AttributeError`. -/
def eventCreateInternal_device_id (_e : EventCreateInternal) :
    Except String String :=
  .error "AttributeError: EventCreateInternal object has no attribute device_id"

/-- `CRUDEvent.create` (`ingestion_service/app/crud/event.py`): builds an
`Event` row from the `EventCreateInternal`, reading `obj_in.device_id`
among the keyword arguments — which raises before anything is committed.
(Were the attribute present, `Event(device_id=...)` would itself raise,
since the mapped class has no `device_id` column and its `device_id`
property has no setter.) -/
def crud_event_create (nextId : Int) (obj_in : EventCreateInternal) :
    Except String EventRow :=
  match eventCreateInternal_device_id obj_in with
  | .error e => .error e
  | .ok _ =>
    .ok ⟨nextId, obj_in.sensor_id, obj_in.timestamp, obj_in.event_type, obj_in.data⟩

/-- The tail of the ingestion endpoint `create_event`
(`ingestion_service/app/api/v1/endpoints/events.py`) after validation: an
`EventCreateInternal` is built (with the `device_id` keyword), the row is
committed via `crud.event.create` — a call not wrapped in any `try/except`,
so an exception there propagates out of the endpoint with nothing stored
and no publish attempted — and only on a successful write is the publish
attempted, with both `except ConnectionError` and `except Exception` arms
merely logging, the stored event being returned with HTTP 201
regardless. -/
def create_event_after_validation (device_id : String)
    (timestamp : PyDatetime) (event_type : String)
    (data : Option (List (String × PyValue))) (sensor_id : Int)
    (store : List EventRow) (mq : MQState) :
    List EventRow × Except String EventRow :=
  let obj_in := mkEventCreateInternal device_id timestamp event_type data sensor_id
  match crud_event_create ((store.length : Int) + 1) obj_in with
  | .error e => (store, .error e)
  | .ok row =>
    let store2 := store ++ [row]
    match publish_event mq with
    | .ok _ => (store2, .ok row)
    | .error _ => (store2, .ok row)

/-- The typed `AccessControlEvent` from
`ingestion_service/app/schemas/event.py`: base fields `device_id`
(MAC-validated, normalized to uppercase) and `timestamp`, plus
`user_id : str` declared with no further constraint. -/
structure AccessControlEvent where
  device_id : String
  timestamp : PyDatetime
  user_id : String
deriving DecidableEq

/-- Pydantic validation of an `AccessControlEvent` payload: `device_id`
must match the `MACAddress` pattern (then is uppercased by the
`normalize_device_id` validator), `timestamp` must be a datetime, and
`user_id` must be present and a string — the field is a bare `str` with no
emptiness constraint. -/
def validate_access_control_event (payload : List (String × PyValue)) :
    Except String AccessControlEvent :=
  match plookup "device_id" payload with
  | some (.str d) =>
    if macValid d then
      match plookup "timestamp" payload with
      | some (.dt yr mo dy hr mi) =>
        match plookup "user_id" payload with
        | some (.str u) => .ok ⟨pyUpper d, ⟨yr, mo, dy, hr, mi⟩, u⟩
        | some _ => .error "user_id: Input should be a valid string"
        | none => .error "user_id: Field required"
      | some _ => .error "timestamp: Input should be a valid datetime"
      | none => .error "timestamp: Field required"
    else .error "device_id: String should match pattern"
  | some _ => .error "device_id: Input should be a valid string"
  | none => .error "device_id: Field required"

/-- The closed event-type vocabulary (`EventType` in
`ingestion_service/app/domain/sensor_types.py`). -/
def eventTypes : List String :=
  ["access_attempt", "speed_violation", "motion_detected"]

/-- The closed device-type vocabulary (`DeviceType` in
`ingestion_service/app/domain/sensor_types.py`). -/
def deviceTypes : List String :=
  ["access_controller", "radar", "security_camera"]

/-- `SensorDomain.get_required_fields`: the per-event-type required field
set from `SENSOR_RULES` (a Python `set`, modelled as a list). -/
def get_required_fields (event_type : String) : Option (List String) :=
  if event_type == "access_attempt" then
    some ["device_id", "timestamp", "event_type", "user_id"]
  else if event_type == "speed_violation" then
    some ["device_id", "timestamp", "event_type", "speed_kmh", "location"]
  else if event_type == "motion_detected" then
    some ["device_id", "timestamp", "event_type", "zone", "confidence", "photo_base64"]
  else none

/-- `SensorDomain.get_required_fields` applied to the raw value of the
`event_type` key: the rule comparison `rule.allowed_event_type.value ==
event_type` matches only genuine strings. -/
def required_fields_of (et : Option PyValue) : Option (List String) :=
  match et with
  | some (.str s) => get_required_fields s
  | _ => none

/-- `SensorDomain.is_valid_event_type` on the raw `event_type` value. -/
def is_valid_event_type (et : Option PyValue) : Bool :=
  match et with
  | some (.str s) => eventTypes.contains s
  | _ => false

/-- Python truthiness of the raw `event_type` value (the `not event_type`
guard); an absent key (`dict.get` returning `None`) is falsy. -/
def pyTruthyOpt (et : Option PyValue) : Bool :=
  match et with
  | some v => pyTruthy v
  | none => false

/-- `ValidationService.validate_event_fields`: compute the provided fields
minus the variant's required set; valid iff no extras; an unknown event
type yields `(False, provided_fields)`. -/
def validate_event_fields (et : Option PyValue) (provided : List String) :
    Bool × List String :=
  match required_fields_of et with
  | none => (false, provided)
  | some req =>
    let extra := provided.filter (fun f => !(req.contains f))
    (extra.isEmpty, extra)

/-- The two distinct structured rejections raised by
`EventCreate.validate_strict_fields`. -/
inductive StrictErr where
  | unknownEventType
  | extraFieldsNotAllowed (fields : List String)
deriving DecidableEq

/-- `EventCreate.validate_strict_fields` from
`ingestion_service/app/schemas/event.py`: when the field-set check fails,
raise `unknown_event_type` if the declared type is falsy or not in the
closed set, else raise `extra_fields_not_allowed` naming the extra
fields. -/
def validate_strict_fields (data : List (String × PyValue)) :
    Except StrictErr Unit :=
  let et := plookup "event_type" data
  let provided := data.map Prod.fst
  let r := validate_event_fields et provided
  if r.1 then .ok ()
  else if !(pyTruthyOpt et) || !(is_valid_event_type et) then
    .error .unknownEventType
  else if !r.2.isEmpty then .error (.extraFieldsNotAllowed r.2)
  else .ok ()

/-- `SensorDomain.get_allowed_event_type`: the single permitted event type
for each device type in `SENSOR_RULES`. -/
def get_allowed_event_type (device_type : String) : Option String :=
  if device_type == "access_controller" then some "access_attempt"
  else if device_type == "radar" then some "speed_violation"
  else if device_type == "security_camera" then some "motion_detected"
  else none

/-- `SensorDomain.is_valid_device_event_combination`:
`allowed_event == event_type` (Python `None == x` is `False`). -/
def is_valid_device_event_combination (device_type event_type : String) : Bool :=
  match get_allowed_event_type device_type with
  | some allowed => allowed == event_type
  | none => false

/-- `ValidationService.get_validation_error_message`: the HTTP 400 detail
for a device/event type mismatch, naming the offending event type, the
device type and the expected event type. -/
def get_validation_error_message (device_type event_type : String) : String :=
  match get_allowed_event_type device_type with
  | none => "Unknown device type \x27" ++ device_type ++ "\x27"
  | some expected =>
    "Event type \x27" ++ event_type ++ "\x27 not valid for device type \x27"
      ++ device_type ++ "\x27. Expected \x27" ++ expected ++ "\x27"

/-- The base64 alphabet `[A-Za-z0-9+/]` of the photo validator's regex. -/
def isB64Char (c : Char) : Bool :=
  (('A' ≤ c) && (c ≤ 'Z')) || (('a' ≤ c) && (c ≤ 'z')) ||
    (('0' ≤ c) && (c ≤ '9')) || (c == '+') || (c == '/')

/-- The sextet value of a base64 alphabet character. -/
def b64Index (c : Char) : Option Nat :=
  if ('A' ≤ c) && (c ≤ 'Z') then some (c.toNat - 65)
  else if ('a' ≤ c) && (c ≤ 'z') then some (c.toNat - 71)
  else if ('0' ≤ c) && (c ≤ '9') then some (c.toNat + 4)
  else if c == '+' then some 62
  else if c == '/' then some 63
  else .none

/-- `base64.b64decode(v, validate=True)` on a string of length a multiple
of four: decode four sextets to three bytes per group, with `=` padding
permitted only at the very end for the final one or two bytes; any other
character or misplaced padding raises `binascii.Error`. -/
def b64decodeList : List Char → Option (List Nat)
  | [] => some []
  | c1 :: c2 :: c3 :: c4 :: rest =>
    match b64Index c1, b64Index c2 with
    | some a, some b =>
      if c3 == '=' then
        if (c4 == '=') && rest.isEmpty then some [a * 4 + b / 16] else .none
      else
        match b64Index c3 with
        | some x =>
          if c4 == '=' then
            if rest.isEmpty then some [a * 4 + b / 16, b % 16 * 16 + x / 4]
            else .none
          else
            match b64Index c4 with
            | some y =>
              match b64decodeList rest with
              | some tail =>
                some ((a * 4 + b / 16) :: (b % 16 * 16 + x / 4) :: (x % 4 * 64 + y) :: tail)
              | none => .none
            | none => .none
        | none => .none
    | _, _ => .none
  | _ => .none

/-- Full match of `[A-Za-z0-9+/]*={0,2}`: a run of base64 alphabet
characters followed by at most two `=`. -/
def strictB64Shape (s : String) : Bool :=
  let p := s.toList.dropWhile isB64Char
  p.all (fun c => c == '=') && decide (p.length ≤ 2)

/-- `re.match(r'^[A-Za-z0-9+/]*={0,2}$', v)`: Python's `$` also matches
just before a newline that ends the string, so a single trailing `'\n'`
after a shape-conforming prefix is tolerated by the regex (such strings are
then rejected later by `b64decode(validate=True)`). -/
def pyFullMatchB64 (s : String) : Bool :=
  strictB64Shape s ||
    (match s.toList.getLast? with
     | some c => (c == '\n') && strictB64Shape (String.mk s.toList.dropLast)
     | none => false)

/-- The known image signatures checked against the decoded bytes: JPEG,
PNG, GIF87a, GIF89a, BMP, RIFF/WebP. -/
def imageHeaders : List (List Nat) :=
  [[255, 216, 255],
   [137, 80, 78, 71, 13, 10, 26, 10],
   [71, 73, 70, 56, 55, 97],
   [71, 73, 70, 56, 57, 97],
   [66, 77],
   [82, 73, 70, 70]]

/-- `decoded_data.startswith(header)` for any known image header. -/
def startsWithImageHeader (bs : List Nat) : Bool :=
  imageHeaders.any (fun h => h.isPrefixOf bs)

/-- `IntrusionDetectionEvent.validate_photo_base64` from
`ingestion_service/app/schemas/event.py`: minimum length 37, regex match,
length a multiple of 4, successful base64 decode, known image signature,
and decoded size at most 5 MiB (`len / (1024*1024) > 5.0`, exactly
`len > 5242880`). -/
def validate_photo_base64 (v : String) : Except String String :=
  if v.length < 37 then
    .error "photo_base64 is too short to be a valid image"
  else if !(pyFullMatchB64 v) then
    .error "photo_base64 contains invalid characters for base64 encoding"
  else if v.length % 4 != 0 then
    .error "photo_base64 has invalid length (must be multiple of 4)"
  else
    match b64decodeList v.toList with
    | none => .error "Invalid base64 string for photo_base64"
    | some decoded =>
      if !(startsWithImageHeader decoded) then
        .error "photo_base64 does not contain a valid image format"
      else if 5242880 < decoded.length then
        .error "Image size exceeds maximum allowed size of 5MB"
      else .ok v

/-- The `user_id` value of an event's payload, when the payload passes the
engine's `not event.data or "user_id" not in event.data` guard. -/
def userIdOf (ev : EventReceived) : Option PyValue :=
  match ev.data with
  | none => none
  | some d => if d.isEmpty then none else plookup "user_id" d

/-- The numeric value of the payload's `speed_kmh` key, when the payload
passes the guard and the value is numeric in Python's `isinstance` sense. -/
def speedOf (ev : EventReceived) : Option ℚ :=
  match ev.data with
  | none => none
  | some d =>
    if d.isEmpty then none
    else
      match plookup "speed_kmh" d with
      | none => none
      | some v => pyToNum v

/-- Helper: constructing an `AlertCreate` succeeds and is the identity on
an already-canonical (valid, uppercase) MAC and a legal alert type; the
photo keyword is dropped in every case. -/
theorem mkAlertCreate_eq_ok (eid : Option Int) (s at_ : String)
    (ts : PyDatetime) (ph : Option PyValue) (h1 : macValid s = true)
    (h2 : pyUpper s = s) (h3 : alertTypes.contains at_ = true) :
    mkAlertCreate eid s at_ ts ph = .ok ⟨eid, s, at_, ts⟩ := by
  have hne : (s == "") = false := by
    cases h : (s == "") with
    | false => rfl
    | true =>
      rw [show s = "" by simpa using h] at h1
      exact absurd h1 (by decide)
  simp [mkAlertCreate, validate_mac_address, hne, h1, h2]
  simpa using h3

/-- Claim C1: the spec says every persisted alert has its `photo` populated
iff its type is `intrusion_detection`, and that an `intrusion_detection`
alert carries the event's `photo_base64` verbatim.  The code cannot do
this: the pydantic `AlertCreate` model declares no `photo_base64` field, so
the keyword passed by the intrusion rule is silently dropped (the returned
object holds only `event_id`, `device_id`, `alert_type`, `timestamp`), and
`CRUDAlert.create` then raises `AttributeError` reading
`obj_in.photo_base64` — for every alert of every type, contradicting the
repository's own CRUD tests. -/
theorem c1_alert_photo_dropped_and_create_raises :
    (process_event 90
        ⟨1, "77:88:99:AA:BB:CC", 5, ⟨2024, 12, 18, 22, 0⟩, "motion_detected",
          some [("zone", .str "Restricted Area"), ("confidence", .num 1),
                ("photo_base64", .str "iVBORw0KGgoAAAANSUhEUgAAAAEAAAABCAYAAAAfFcSJAAAADUlEQVR42mP8/5+hHgAHggJ/PchI7wAAAABJRU5ErkJggg==")]⟩
        ⟨[], false⟩ []).alert =
      some ⟨some 1, "77:88:99:AA:BB:CC", "intrusion_detection", ⟨2024, 12, 18, 22, 0⟩⟩ ∧
    (∀ (nextId : Int) (a : AlertCreate),
      crud_alert_create nextId a =
        .error "AttributeError: AlertCreate object has no attribute photo_base64") :=
  ⟨rfl, fun _ _ => rfl⟩

/-- Claim C2: the claim presumes the Event Store write can succeed and
says the stored event then survives a publish failure while a distinct
"publish failed" error is raised from `publish_event`.  The code cannot
reach that state: the pydantic `EventCreateInternal` model declares no
`device_id` field, so the keyword passed by the endpoint is silently
dropped and `CRUDEvent.create` raises `AttributeError` reading
`obj_in.device_id` — for every event, before anything is committed — so the
endpoint propagates the exception with nothing stored and no publish
attempted, contradicting the repository's own API tests that assert
HTTP 201.  Independently, a failure of the publish call itself is swallowed
by the internal `try/except` of `publish_event`, not raised. -/
theorem c2_store_write_always_fails_attribute_error :
    (∀ (nextId : Int) (obj_in : EventCreateInternal),
      crud_event_create nextId obj_in =
        .error "AttributeError: EventCreateInternal object has no attribute device_id") ∧
    (∀ (device_id : String) (ts : PyDatetime) (et : String)
       (data : Option (List (String × PyValue))) (sid : Int)
       (store : List EventRow) (mq : MQState),
      create_event_after_validation device_id ts et data sid store mq =
        (store,
         .error "AttributeError: EventCreateInternal object has no attribute device_id")) ∧
    create_event_after_validation "AA:BB:CC:DD:EE:FF" ⟨2024, 12, 18, 14, 0⟩
        "access_attempt" (some [("user_id", .str "test_user")]) 1 []
        ⟨true, true, true⟩ =
      ([],
       .error "AttributeError: EventCreateInternal object has no attribute device_id") ∧
    publish_event ⟨false, true, false⟩ =
      .ok (⟨true, true, false⟩, .failedSwallowed) :=
  ⟨fun _ _ => rfl, fun _ _ _ _ _ _ _ => rfl, rfl, rfl⟩

/-- Claim C3 (counterexample): a structurally valid `access_attempt`
payload whose `user_id` is the empty string is accepted by the pydantic
validator, contrary to the claim that it is rejected: the `user_id` field
is a bare `str` with no emptiness constraint. -/
theorem c3_empty_user_id_accepted :
    validate_access_control_event
      [("device_id", .str "AA:BB:CC:DD:EE:FF"), ("timestamp", .dt 2024 12 18 14 0),
       ("user_id", .str "")] =
      .ok ⟨"AA:BB:CC:DD:EE:FF", ⟨2024, 12, 18, 14, 0⟩, ""⟩ :=
  rfl

/-- Claim C3 (amended): for a payload whose base fields are valid,
structural validation succeeds iff `user_id` is present and is a string;
the empty string is accepted (there is no non-emptiness check). -/
theorem c3_user_id_any_string_accepted (payload : List (String × PyValue))
    (d : String) (yr mo dy hr mi : Nat)
    (hd : plookup "device_id" payload = some (.str d))
    (hmac : macValid d = true)
    (ht : plookup "timestamp" payload = some (.dt yr mo dy hr mi)) :
    (∃ r, validate_access_control_event payload = .ok r) ↔
      ∃ u, plookup "user_id" payload = some (.str u) := by
  rw [validate_access_control_event, hd]
  simp only [hmac, if_true]
  rw [ht]
  cases hu : plookup "user_id" payload with
  | none => simp
  | some v => cases v <;> simp

/-- Claim C3 (witness for the amended theorem): the empty-`user_id`
payload instantiates the amended equivalence. -/
theorem c3_user_id_any_string_accepted_witness :
    ∃ r, validate_access_control_event
      [("device_id", .str "AA:BB:CC:DD:EE:FF"), ("timestamp", .dt 2024 12 18 14 0),
       ("user_id", .str "")] = .ok r :=
  (c3_user_id_any_string_accepted
    [("device_id", .str "AA:BB:CC:DD:EE:FF"), ("timestamp", .dt 2024 12 18 14 0),
     ("user_id", .str "")]
    "AA:BB:CC:DD:EE:FF" 2024 12 18 14 0 rfl (by decide) rfl).mpr ⟨"", rfl⟩

/-- Claim C4: for an `access_attempt` event (with a functioning cache and a
well-formed uppercase MAC device id): a cache hit for the user yields no
alert, no directory lookup and an unchanged cache; a cache miss resolved as
authorized by the directory read-repairs the cache (so the same lookup now
hits) and yields no alert; a cache miss the directory also denies yields an
`unauthorized_access` alert carrying the originating event id, device id
and event timestamp (and the `AlertCreate` model has no photo field). -/
theorem c4_access_control_decision (threshold : Int) (ev : EventReceived)
    (c : CacheState) (db : List PyValue) (uid : PyValue)
    (het : ev.event_type = "access_attempt")
    (huid : userIdOf ev = some uid)
    (hdown : c.down = false)
    (hmac : macValid ev.device_id = true)
    (hup : pyUpper ev.device_id = ev.device_id) :
    (cache_is_user_authorized c uid = true →
      process_event threshold ev c db = ⟨none, c, false⟩) ∧
    (cache_is_user_authorized c uid = false →
      db_is_user_authorized db uid = true →
      process_event threshold ev c db =
        ⟨none, cache_add_authorized_user c uid, true⟩ ∧
      cache_is_user_authorized (cache_add_authorized_user c uid) uid = true) ∧
    (cache_is_user_authorized c uid = false →
      db_is_user_authorized db uid = false →
      process_event threshold ev c db =
        ⟨some ⟨some ev.id, ev.device_id, "unauthorized_access", ev.timestamp⟩,
          c, true⟩) := by
  unfold userIdOf at huid
  cases hd : ev.data with
  | none => rw [hd] at huid; exact absurd huid (by simp)
  | some d =>
    rw [hd] at huid
    by_cases hde : d.isEmpty = true
    · simp [hde] at huid
    · simp [hde] at huid
      refine ⟨?_, ?_, ?_⟩
      · intro hch
        have hpa : process_access_control ev c db = ⟨.ok none, c, false⟩ := by
          simp [process_access_control, hd, hde, huid, hch]
        simp [process_event, het, hpa]
      · intro hch hdb
        have hpa : process_access_control ev c db =
            ⟨.ok none, cache_add_authorized_user c uid, true⟩ := by
          simp [process_access_control, hd, hde, huid, hch, hdb]
        refine ⟨by simp [process_event, het, hpa], ?_⟩
        simp [cache_is_user_authorized, cache_add_authorized_user, hdown]
      · intro hch hdb
        have hmk := mkAlertCreate_eq_ok (some ev.id) ev.device_id
          "unauthorized_access" ev.timestamp none hmac hup (by decide)
        have hpa : process_access_control ev c db =
            ⟨.ok (some ⟨some ev.id, ev.device_id, "unauthorized_access",
              ev.timestamp⟩), c, true⟩ := by
          simp [process_access_control, hd, hde, huid, hch, hdb, hmk]
        simp [process_event, het, hpa]

/-- Claim C4 (witness): the three branches at concrete inputs — a cached
authorized user, a cold cache with a directory-authorized user
(read-repair), and an unknown user producing the alert. -/
theorem c4_access_control_decision_witness :
    process_event 90
        ⟨10, "AA:BB:CC:DD:EE:FF", 3, ⟨2024, 12, 18, 14, 0⟩, "access_attempt",
          some [("user_id", .str "alice")]⟩
        ⟨[.str "alice"], false⟩ [] =
      ⟨none, ⟨[.str "alice"], false⟩, false⟩ ∧
    (process_event 90
        ⟨10, "AA:BB:CC:DD:EE:FF", 3, ⟨2024, 12, 18, 14, 0⟩, "access_attempt",
          some [("user_id", .str "alice")]⟩
        ⟨[], false⟩ [.str "alice"] =
      ⟨none, cache_add_authorized_user ⟨[], false⟩ (.str "alice"), true⟩ ∧
      cache_is_user_authorized (cache_add_authorized_user ⟨[], false⟩
        (.str "alice")) (.str "alice") = true) ∧
    process_event 90
        ⟨10, "AA:BB:CC:DD:EE:FF", 3, ⟨2024, 12, 18, 14, 0⟩, "access_attempt",
          some [("user_id", .str "ghost")]⟩
        ⟨[], false⟩ [] =
      ⟨some ⟨some 10, "AA:BB:CC:DD:EE:FF", "unauthorized_access",
        ⟨2024, 12, 18, 14, 0⟩⟩, ⟨[], false⟩, true⟩ :=
  ⟨(c4_access_control_decision 90
      ⟨10, "AA:BB:CC:DD:EE:FF", 3, ⟨2024, 12, 18, 14, 0⟩, "access_attempt",
        some [("user_id", .str "alice")]⟩
      ⟨[.str "alice"], false⟩ [] (.str "alice")
      rfl rfl rfl (by decide) (by decide)).1 (by decide),
   (c4_access_control_decision 90
      ⟨10, "AA:BB:CC:DD:EE:FF", 3, ⟨2024, 12, 18, 14, 0⟩, "access_attempt",
        some [("user_id", .str "alice")]⟩
      ⟨[], false⟩ [.str "alice"] (.str "alice")
      rfl rfl rfl (by decide) (by decide)).2.1 (by decide) (by decide),
   (c4_access_control_decision 90
      ⟨10, "AA:BB:CC:DD:EE:FF", 3, ⟨2024, 12, 18, 14, 0⟩, "access_attempt",
        some [("user_id", .str "ghost")]⟩
      ⟨[], false⟩ [] (.str "ghost")
      rfl rfl rfl (by decide) (by decide)).2.2 (by decide) (by decide)⟩

/-- Claim C10: during a cache outage every `is_user_authorized` call
returns `False` instead of propagating the exception, so an
`access_attempt` evaluation always falls through to the durable directory
and the decision equals the directory's answer: no alert iff the directory
authorizes the user, and an `unauthorized_access` alert when it does
not. -/
theorem c10_cache_outage_falls_back_to_directory (threshold : Int)
    (ev : EventReceived) (c : CacheState) (db : List PyValue) (uid : PyValue)
    (hdown : c.down = true)
    (het : ev.event_type = "access_attempt")
    (huid : userIdOf ev = some uid)
    (hmac : macValid ev.device_id = true)
    (hup : pyUpper ev.device_id = ev.device_id) :
    (∀ u, cache_is_user_authorized c u = false) ∧
    (process_event threshold ev c db).dbQueried = true ∧
    ((process_event threshold ev c db).alert = none ↔
      db_is_user_authorized db uid = true) ∧
    (db_is_user_authorized db uid = false →
      (process_event threshold ev c db).alert =
        some ⟨some ev.id, ev.device_id, "unauthorized_access",
          ev.timestamp⟩) := by
  have hch : ∀ u, cache_is_user_authorized c u = false := by
    intro u; simp [cache_is_user_authorized, hdown]
  unfold userIdOf at huid
  cases hd : ev.data with
  | none => rw [hd] at huid; exact absurd huid (by simp)
  | some d =>
    rw [hd] at huid
    by_cases hde : d.isEmpty = true
    · simp [hde] at huid
    · simp [hde] at huid
      by_cases hdb : db_is_user_authorized db uid = true
      · have hpa : process_access_control ev c db =
            ⟨.ok none, cache_add_authorized_user c uid, true⟩ := by
          simp [process_access_control, hd, hde, huid, hch, hdb]
        refine ⟨hch, ?_, ?_, ?_⟩
        · simp [process_event, het, hpa]
        · simp [process_event, het, hpa, hdb]
        · intro hdb2; rw [hdb2] at hdb; exact Bool.noConfusion hdb
      · have hdb2 : db_is_user_authorized db uid = false := by
          cases h : db_is_user_authorized db uid with
          | false => rfl
          | true => exact absurd h hdb
        have hmk := mkAlertCreate_eq_ok (some ev.id) ev.device_id
          "unauthorized_access" ev.timestamp none hmac hup (by decide)
        have hpa : process_access_control ev c db =
            ⟨.ok (some ⟨some ev.id, ev.device_id, "unauthorized_access",
              ev.timestamp⟩), c, true⟩ := by
          simp [process_access_control, hd, hde, huid, hch, hdb2, hmk]
        refine ⟨hch, ?_, ?_, ?_⟩
        · simp [process_event, het, hpa]
        · simp [process_event, het, hpa, hdb2]
        · intro _; simp [process_event, het, hpa]

/-- Claim C10 (witness): with a broken cache, a directory-authorized user
yields no alert and an unknown user yields the `unauthorized_access`
alert; both evaluations query the directory. -/
theorem c10_cache_outage_falls_back_to_directory_witness :
    (process_event 90
        ⟨11, "AA:BB:CC:DD:EE:FF", 3, ⟨2024, 12, 18, 14, 0⟩, "access_attempt",
          some [("user_id", .str "alice")]⟩
        ⟨[.str "alice"], true⟩ [.str "alice"]).alert = none ∧
    (process_event 90
        ⟨11, "AA:BB:CC:DD:EE:FF", 3, ⟨2024, 12, 18, 14, 0⟩, "access_attempt",
          some [("user_id", .str "ghost")]⟩
        ⟨[.str "ghost"], true⟩ []).alert =
      some ⟨some 11, "AA:BB:CC:DD:EE:FF", "unauthorized_access",
        ⟨2024, 12, 18, 14, 0⟩⟩ :=
  ⟨((c10_cache_outage_falls_back_to_directory 90
      ⟨11, "AA:BB:CC:DD:EE:FF", 3, ⟨2024, 12, 18, 14, 0⟩, "access_attempt",
        some [("user_id", .str "alice")]⟩
      ⟨[.str "alice"], true⟩ [.str "alice"] (.str "alice")
      rfl rfl rfl (by decide) (by decide)).2.2.1).mpr (by decide),
   (c10_cache_outage_falls_back_to_directory 90
      ⟨11, "AA:BB:CC:DD:EE:FF", 3, ⟨2024, 12, 18, 14, 0⟩, "access_attempt",
        some [("user_id", .str "ghost")]⟩
      ⟨[.str "ghost"], true⟩ [] (.str "ghost")
      rfl rfl rfl (by decide) (by decide)).2.2.2 (by decide)⟩

/-- Claim C5: for a `motion_detected` event (well-formed uppercase MAC
device id), an alert is returned iff the payload is non-empty with a string
`zone` containing one of the four restricted-area names as a case-sensitive
substring, the event hour satisfies `hour >= 18 or hour < 6`, and a
non-falsy `photo_base64` value is present; any returned alert is the
`intrusion_detection` alert for the originating event id, device id and
timestamp. -/
theorem c5_intrusion_decision (threshold : Int) (ev : EventReceived)
    (c : CacheState) (db : List PyValue)
    (het : ev.event_type = "motion_detected")
    (hmac : macValid ev.device_id = true)
    (hup : pyUpper ev.device_id = ev.device_id) :
    ((process_event threshold ev c db).alert.isSome = true ↔
      ∃ d, ev.data = some d ∧ d ≠ [] ∧
        (∃ z, plookup "zone" d = some (.str z) ∧
          restrictedZones.any (fun r => pyInStr r z) = true) ∧
        (18 ≤ ev.timestamp.hour ∨ ev.timestamp.hour < 6) ∧
        (∃ p, plookup "photo_base64" d = some p ∧ pyTruthy p = true)) ∧
    (∀ a, (process_event threshold ev c db).alert = some a →
      a = ⟨some ev.id, ev.device_id, "intrusion_detection", ev.timestamp⟩) := by
  have hhour : is_after_hours ev.timestamp = true ↔
      (18 ≤ ev.timestamp.hour ∨ ev.timestamp.hour < 6) := by
    simp [is_after_hours]
  cases hd : ev.data with
  | none =>
    have hpi : process_intrusion ev = .ok none := by
      simp [process_intrusion, hd]
    simp [process_event, het, hpi, hd]
  | some d =>
    by_cases hde : d.isEmpty = true
    · have hpi : process_intrusion ev = .ok none := by
        simp [process_intrusion, hd, hde]
      have hdnil : d = [] := by
        cases d with
        | nil => rfl
        | cons a t => exact absurd hde (by simp [List.isEmpty])
      simp [process_event, het, hpi, hd, hdnil, plookup]
    · have hdne : d ≠ [] := by
        intro h; subst h; exact hde rfl
      cases hz : plookup "zone" d with
      | none =>
        have hpi : process_intrusion ev = .ok none := by
          simp [process_intrusion, hd, hde, hz]
        simp [process_event, het, hpi, hd, hz]
      | some zv =>
        cases zv with
        | str z =>
          by_cases hr : restrictedZones.any (fun r => pyInStr r z) = true
          · by_cases hh : is_after_hours ev.timestamp = true
            · cases hp : plookup "photo_base64" d with
              | none =>
                have hpi : process_intrusion ev = .ok none := by
                  simp [process_intrusion, hd, hde, hz, is_restricted_area, hr, hh, hp]
                simp [process_event, het, hpi, hd, hz, hp]
              | some p =>
                by_cases hpt : pyTruthy p = true
                · have hmk := mkAlertCreate_eq_ok (some ev.id) ev.device_id
                    "intrusion_detection" ev.timestamp (some p) hmac hup (by decide)
                  have hpi : process_intrusion ev = .ok (some ⟨some ev.id,
                      ev.device_id, "intrusion_detection", ev.timestamp⟩) := by
                    simp [process_intrusion, hd, hde, hz, is_restricted_area,
                      hr, hh, hp, hpt, hmk, Except.map]
                  refine ⟨?_, ?_⟩
                  · refine ⟨fun _ => ⟨d, rfl, hdne, ⟨z, hz, hr⟩, hhour.mp hh,
                      ⟨p, hp, hpt⟩⟩, fun _ => ?_⟩
                    simp [process_event, het, hpi]
                  · intro a ha
                    rw [show (process_event threshold ev c db).alert =
                        some ⟨some ev.id, ev.device_id, "intrusion_detection",
                          ev.timestamp⟩ by simp [process_event, het, hpi]] at ha
                    exact (Option.some_inj.mp ha).symm
                · have hpt2 : pyTruthy p = false := by
                    cases h : pyTruthy p with
                    | false => rfl
                    | true => exact absurd h hpt
                  have hpi : process_intrusion ev = .ok none := by
                    simp [process_intrusion, hd, hde, hz, is_restricted_area,
                      hr, hh, hp, hpt2]
                  simp [process_event, het, hpi, hd, hz, hp, hpt2, hr]
            · have hpi : process_intrusion ev = .ok none := by
                simp [process_intrusion, hd, hde, hz, is_restricted_area, hr, hh]
              have hh2 : ¬ (18 ≤ ev.timestamp.hour ∨ ev.timestamp.hour < 6) :=
                fun hc => hh (hhour.mpr hc)
              simp [process_event, het, hpi, hd, hz, hh2, hr]
          · have hr2 : ∀ r ∈ restrictedZones, ¬ pyInStr r z = true := by
              simpa using hr
            have hpi : process_intrusion ev = .ok none := by
              simp [process_intrusion, hd, hde, hz, is_restricted_area, hr]
            simp [process_event, het, hpi, hd, hz, hr]
            intro _ x hx hpx
            exact (hr2 x hx hpx).elim
        | num q =>
          have hpi : process_intrusion ev = .error "TypeError: argument is not iterable" := by
            simp [process_intrusion, hd, hde, hz, is_restricted_area]
          simp [process_event, het, hpi, hd, hz]
        | bool b =>
          have hpi : process_intrusion ev = .error "TypeError: argument is not iterable" := by
            simp [process_intrusion, hd, hde, hz, is_restricted_area]
          simp [process_event, het, hpi, hd, hz]
        | dt yr mo dy hr mi =>
          have hpi : process_intrusion ev = .error "TypeError: argument is not iterable" := by
            simp [process_intrusion, hd, hde, hz, is_restricted_area]
          simp [process_event, het, hpi, hd, hz]
        | null =>
          have hpi : process_intrusion ev = .error "TypeError: argument is not iterable" := by
            simp [process_intrusion, hd, hde, hz, is_restricted_area]
          simp [process_event, het, hpi, hd, hz]

/-- Claim C5 (witness): a restricted-zone event with a photo at hour 22
yields an alert; the same event at hour 17 (not after hours) yields
none. -/
theorem c5_intrusion_decision_witness :
    (process_event 90
        ⟨7, "77:88:99:AA:BB:CC", 5, ⟨2024, 12, 18, 22, 0⟩, "motion_detected",
          some [("zone", .str "Restricted Area"), ("confidence", .num 1),
                ("photo_base64", .str "photo")]⟩
        ⟨[], false⟩ []).alert.isSome = true ∧
    (process_event 90
        ⟨7, "77:88:99:AA:BB:CC", 5, ⟨2024, 12, 18, 17, 59⟩, "motion_detected",
          some [("zone", .str "Restricted Area"), ("confidence", .num 1),
                ("photo_base64", .str "photo")]⟩
        ⟨[], false⟩ []).alert.isSome = false := by
  constructor
  · exact (c5_intrusion_decision 90
      ⟨7, "77:88:99:AA:BB:CC", 5, ⟨2024, 12, 18, 22, 0⟩, "motion_detected",
        some [("zone", .str "Restricted Area"), ("confidence", .num 1),
              ("photo_base64", .str "photo")]⟩
      ⟨[], false⟩ [] rfl (by decide) (by decide)).1.mpr
      ⟨_, rfl, by decide, ⟨"Restricted Area", rfl, by decide⟩, by decide,
        ⟨.str "photo", rfl, by decide⟩⟩
  · have h := (c5_intrusion_decision 90
      ⟨7, "77:88:99:AA:BB:CC", 5, ⟨2024, 12, 18, 17, 59⟩, "motion_detected",
        some [("zone", .str "Restricted Area"), ("confidence", .num 1),
              ("photo_base64", .str "photo")]⟩
      ⟨[], false⟩ [] rfl (by decide) (by decide)).1
    cases hx : (process_event 90
        ⟨7, "77:88:99:AA:BB:CC", 5, ⟨2024, 12, 18, 17, 59⟩, "motion_detected",
          some [("zone", .str "Restricted Area"), ("confidence", .num 1),
                ("photo_base64", .str "photo")]⟩
        ⟨[], false⟩ []).alert.isSome with
    | false => rfl
    | true =>
      obtain ⟨d, hd, -, -, hhr, -⟩ := h.mp hx
      exact absurd hhr (by decide)

/-- Claim C6: the configured threshold defaults to 90; for a
`speed_violation` event (well-formed uppercase MAC device id) carrying a
numeric `speed_kmh`, an alert is returned iff the speed is strictly greater
than the threshold; when `speed_kmh` is absent or non-numeric the rule
returns no alert and raises no error; any returned alert is the
`speed_violation` alert for the originating event id, device id and
timestamp. -/
theorem c6_radar_speed_decision (threshold : Int) (ev : EventReceived)
    (c : CacheState) (db : List PyValue)
    (het : ev.event_type = "speed_violation")
    (hmac : macValid ev.device_id = true)
    (hup : pyUpper ev.device_id = ev.device_id) :
    SPEED_VIOLATION_THRESHOLD = 90 ∧
    (∀ q : ℚ, speedOf ev = some q →
      ((process_event threshold ev c db).alert.isSome = true ↔
        (threshold : ℚ) < q)) ∧
    (speedOf ev = none →
      process_radar_speed threshold ev = .ok none ∧
      (process_event threshold ev c db).alert = none) ∧
    (∀ a, (process_event threshold ev c db).alert = some a →
      a = ⟨some ev.id, ev.device_id, "speed_violation", ev.timestamp⟩) := by
  cases hd : ev.data with
  | none =>
    have hs : speedOf ev = none := by simp [speedOf, hd]
    have hr : process_radar_speed threshold ev = .ok none := by
      simp [process_radar_speed, hd]
    refine ⟨rfl, ?_, ?_, ?_⟩ <;> simp [hs, hr, process_event, het]
  | some d =>
    by_cases hde : d.isEmpty = true
    · have hs : speedOf ev = none := by simp [speedOf, hd, hde]
      have hr : process_radar_speed threshold ev = .ok none := by
        simp [process_radar_speed, hd, hde]
      refine ⟨rfl, ?_, ?_, ?_⟩ <;> simp [hs, hr, process_event, het]
    · cases hv : plookup "speed_kmh" d with
      | none =>
        have hs : speedOf ev = none := by simp [speedOf, hd, hde, hv]
        have hr : process_radar_speed threshold ev = .ok none := by
          simp [process_radar_speed, hd, hde, hv]
        refine ⟨rfl, ?_, ?_, ?_⟩ <;> simp [hs, hr, process_event, het]
      | some v =>
        cases hn : pyToNum v with
        | none =>
          have hs : speedOf ev = none := by simp [speedOf, hd, hde, hv, hn]
          have hr : process_radar_speed threshold ev = .ok none := by
            simp [process_radar_speed, hd, hde, hv, hn]
          refine ⟨rfl, ?_, ?_, ?_⟩ <;> simp [hs, hr, process_event, het]
        | some q0 =>
          have hs : speedOf ev = some q0 := by simp [speedOf, hd, hde, hv, hn]
          by_cases hle : q0 ≤ (threshold : ℚ)
          · have hr : process_radar_speed threshold ev = .ok none := by
              simp [process_radar_speed, hd, hde, hv, hn, hle]
            refine ⟨rfl, ?_, ?_, ?_⟩
            · intro q hq
              rw [hs] at hq
              obtain rfl := Option.some_inj.mp hq
              have hnlt : ¬ (threshold : ℚ) < q0 := not_lt.mpr hle
              simp [process_event, het, hr, hnlt]
            · intro hnone; rw [hs] at hnone; cases hnone
            · intro a ha
              rw [show (process_event threshold ev c db).alert = none by
                simp [process_event, het, hr]] at ha
              cases ha
          · have hmk := mkAlertCreate_eq_ok (some ev.id) ev.device_id
              "speed_violation" ev.timestamp none hmac hup (by decide)
            have hr : process_radar_speed threshold ev =
                .ok (some ⟨some ev.id, ev.device_id, "speed_violation",
                  ev.timestamp⟩) := by
              simp [process_radar_speed, hd, hde, hv, hn, hle, hmk, Except.map]
            refine ⟨rfl, ?_, ?_, ?_⟩
            · intro q hq
              rw [hs] at hq
              obtain rfl := Option.some_inj.mp hq
              simp [process_event, het, hr]
              exact not_le.mp hle
            · intro hnone; rw [hs] at hnone; cases hnone
            · intro a ha
              rw [show (process_event threshold ev c db).alert =
                  some ⟨some ev.id, ev.device_id, "speed_violation",
                    ev.timestamp⟩ by simp [process_event, het, hr]] at ha
              exact (Option.some_inj.mp ha).symm

/-- Claim C6 (witness): at the default threshold 90, speed 120 yields an
alert, speed 90 (exactly at threshold) yields none, and a non-numeric
speed yields no alert and no error. -/
theorem c6_radar_speed_decision_witness :
    (process_event 90
        ⟨8, "11:22:33:44:55:66", 4, ⟨2024, 12, 18, 14, 0⟩, "speed_violation",
          some [("speed_kmh", .num 120), ("location", .str "Main St")]⟩
        ⟨[], false⟩ []).alert.isSome = true ∧
    (process_event 90
        ⟨8, "11:22:33:44:55:66", 4, ⟨2024, 12, 18, 14, 0⟩, "speed_violation",
          some [("speed_kmh", .num 90), ("location", .str "Main St")]⟩
        ⟨[], false⟩ []).alert.isSome = false ∧
    process_radar_speed 90
        ⟨8, "11:22:33:44:55:66", 4, ⟨2024, 12, 18, 14, 0⟩, "speed_violation",
          some [("speed_kmh", .str "fast"), ("location", .str "Main St")]⟩ =
      .ok none := by
  refine ⟨?_, ?_, ?_⟩
  · exact ((c6_radar_speed_decision 90
      ⟨8, "11:22:33:44:55:66", 4, ⟨2024, 12, 18, 14, 0⟩, "speed_violation",
        some [("speed_kmh", .num 120), ("location", .str "Main St")]⟩
      ⟨[], false⟩ [] rfl (by decide) (by decide)).2.1 120 rfl).mpr (by norm_num)
  · have h := (c6_radar_speed_decision 90
      ⟨8, "11:22:33:44:55:66", 4, ⟨2024, 12, 18, 14, 0⟩, "speed_violation",
        some [("speed_kmh", .num 90), ("location", .str "Main St")]⟩
      ⟨[], false⟩ [] rfl (by decide) (by decide)).2.1 90 rfl
    cases hx : (process_event 90
        ⟨8, "11:22:33:44:55:66", 4, ⟨2024, 12, 18, 14, 0⟩, "speed_violation",
          some [("speed_kmh", .num 90), ("location", .str "Main St")]⟩
        ⟨[], false⟩ []).alert.isSome with
    | false => rfl
    | true => exact absurd (h.mp hx) (by norm_num)
  · exact ((c6_radar_speed_decision 90
      ⟨8, "11:22:33:44:55:66", 4, ⟨2024, 12, 18, 14, 0⟩, "speed_violation",
        some [("speed_kmh", .str "fast"), ("location", .str "Main St")]⟩
      ⟨[], false⟩ [] rfl (by decide) (by decide)).2.2.1 rfl).1

/-- Claim C7: when the declared `event_type` is absent, falsy, non-string
or not in the closed set, `validate_strict_fields` rejects with
`unknown_event_type`; when it is a known type, the payload is rejected with
`extra_fields_not_allowed` naming exactly the provided fields not in that
variant's required set whenever that list is non-empty, and accepted by
this check when it is empty. -/
theorem c7_strict_fields_rejection (data : List (String × PyValue)) :
    (is_valid_event_type (plookup "event_type" data) = false →
      validate_strict_fields data = .error .unknownEventType) ∧
    (∀ s req, plookup "event_type" data = some (.str s) →
      get_required_fields s = some req →
      ((data.map Prod.fst).filter (fun f => !(req.contains f)) ≠ [] →
        validate_strict_fields data =
          .error (.extraFieldsNotAllowed
            ((data.map Prod.fst).filter (fun f => !(req.contains f))))) ∧
      ((data.map Prod.fst).filter (fun f => !(req.contains f)) = [] →
        validate_strict_fields data = .ok ())) := by
  constructor
  · intro hvalid
    cases he : plookup "event_type" data with
    | none =>
      simp [validate_strict_fields, he, validate_event_fields,
        required_fields_of, pyTruthyOpt]
    | some v =>
      rw [he] at hvalid
      cases v with
      | str s =>
        have hc : eventTypes.contains s = false := by
          simpa [is_valid_event_type] using hvalid
        have hreq : get_required_fields s = none := by
          by_cases h1 : s = "access_attempt"
          · subst h1; exact absurd hc (by decide)
          · by_cases h2 : s = "speed_violation"
            · subst h2; exact absurd hc (by decide)
            · by_cases h3 : s = "motion_detected"
              · subst h3; exact absurd hc (by decide)
              · simp [get_required_fields, h1, h2, h3]
        simp [validate_strict_fields, he, validate_event_fields,
          required_fields_of, hreq, is_valid_event_type, hc]
        intro _ hmem
        simp [eventTypes] at hmem
        rcases hmem with rfl | rfl | rfl <;> exact absurd hc (by decide)
      | num q =>
        simp [validate_strict_fields, he, validate_event_fields,
          required_fields_of, is_valid_event_type, pyTruthyOpt]
      | bool b =>
        simp [validate_strict_fields, he, validate_event_fields,
          required_fields_of, is_valid_event_type, pyTruthyOpt]
      | dt yr mo dy hr mi =>
        simp [validate_strict_fields, he, validate_event_fields,
          required_fields_of, is_valid_event_type, pyTruthyOpt]
      | null =>
        simp [validate_strict_fields, he, validate_event_fields,
          required_fields_of, is_valid_event_type, pyTruthyOpt]
  · intro s req he hreq
    have hmem : s = "access_attempt" ∨ s = "speed_violation" ∨
        s = "motion_detected" := by
      by_cases h1 : s = "access_attempt"
      · exact Or.inl h1
      · by_cases h2 : s = "speed_violation"
        · exact Or.inr (Or.inl h2)
        · by_cases h3 : s = "motion_detected"
          · exact Or.inr (Or.inr h3)
          · rw [show get_required_fields s = none by
              simp [get_required_fields, h1, h2, h3]] at hreq
            cases hreq
    have hrof : required_fields_of (some (.str s)) = some req := by
      simp [required_fields_of, hreq]
    have hvef : validate_event_fields (some (.str s)) (data.map Prod.fst) =
        (((data.map Prod.fst).filter (fun f => !(req.contains f))).isEmpty,
         (data.map Prod.fst).filter (fun f => !(req.contains f))) := by
      simp [validate_event_fields, hrof]
    have hval2 : is_valid_event_type (some (.str s)) = true := by
      rcases hmem with rfl | rfl | rfl <;> decide
    have htr : pyTruthyOpt (some (.str s)) = true := by
      rcases hmem with rfl | rfl | rfl <;> decide
    constructor
    · intro hne
      have hie : ((data.map Prod.fst).filter
          (fun f => !(req.contains f))).isEmpty = false := by
        cases hex : (data.map Prod.fst).filter (fun f => !(req.contains f)) with
        | nil => exact absurd hex hne
        | cons a t => rfl
      unfold validate_strict_fields
      rw [he]
      dsimp only
      rw [hvef]
      dsimp only
      rw [hie]
      simp [hval2, htr]
    · intro hempty
      unfold validate_strict_fields
      rw [he]
      dsimp only
      rw [hvef]
      dsimp only
      rw [hempty]
      simp

/-- Claim C7 (witness): an unknown event type is rejected with
`unknown_event_type`; a valid `access_attempt` payload with a foreign
`speed_kmh` field added is rejected with `extra_fields_not_allowed` naming
exactly `speed_kmh`. -/
theorem c7_strict_fields_rejection_witness :
    validate_strict_fields
      [("device_id", .str "AA:BB:CC:DD:EE:FF"),
       ("timestamp", .dt 2024 12 18 14 0),
       ("event_type", .str "temperature_reading"),
       ("user_id", .str "alice")] = .error .unknownEventType ∧
    validate_strict_fields
      [("device_id", .str "AA:BB:CC:DD:EE:FF"),
       ("timestamp", .dt 2024 12 18 14 0),
       ("event_type", .str "access_attempt"),
       ("user_id", .str "alice"),
       ("speed_kmh", .num 120)] =
      .error (.extraFieldsNotAllowed ["speed_kmh"]) :=
  ⟨(c7_strict_fields_rejection
      [("device_id", .str "AA:BB:CC:DD:EE:FF"),
       ("timestamp", .dt 2024 12 18 14 0),
       ("event_type", .str "temperature_reading"),
       ("user_id", .str "alice")]).1 (by decide),
   ((c7_strict_fields_rejection
      [("device_id", .str "AA:BB:CC:DD:EE:FF"),
       ("timestamp", .dt 2024 12 18 14 0),
       ("event_type", .str "access_attempt"),
       ("user_id", .str "alice"),
       ("speed_kmh", .num 120)]).2 "access_attempt"
      ["device_id", "timestamp", "event_type", "user_id"]
      rfl rfl).1 (by decide)⟩

/-- Claim C8: over the nine (device type, event type) pairs the cross-check
accepts exactly the three matching pairs; each of the six rejected pairs
gets an error message that names the device type, the offending event type
and the expected event type (which exists for every known device type). -/
theorem c8_device_event_cross_check :
    (∀ d ∈ deviceTypes, ∀ e ∈ eventTypes,
      (is_valid_device_event_combination d e = true ↔
        (d, e) ∈ [("access_controller", "access_attempt"),
                  ("radar", "speed_violation"),
                  ("security_camera", "motion_detected")])) ∧
    (∀ d ∈ deviceTypes, ∀ e ∈ eventTypes,
      is_valid_device_event_combination d e = false →
      (get_allowed_event_type d).isSome = true ∧
      pyInStr d (get_validation_error_message d e) = true ∧
      pyInStr e (get_validation_error_message d e) = true ∧
      pyInStr ((get_allowed_event_type d).getD "")
        (get_validation_error_message d e) = true) := by
  constructor
  · decide
  · decide

/-- Claim C8 (witness): the matching pair `radar`/`speed_violation` is
accepted; the mismatched pair `radar`/`motion_detected` is rejected with a
message naming the device type, the offending type and the expected
type. -/
theorem c8_device_event_cross_check_witness :
    is_valid_device_event_combination "radar" "speed_violation" = true ∧
    (pyInStr "radar" (get_validation_error_message "radar" "motion_detected") = true ∧
     pyInStr "motion_detected"
       (get_validation_error_message "radar" "motion_detected") = true ∧
     pyInStr ((get_allowed_event_type "radar").getD "")
       (get_validation_error_message "radar" "motion_detected") = true) :=
  ⟨(c8_device_event_cross_check.1 "radar" (by decide) "speed_violation"
      (by decide)).mpr (by decide),
   ((c8_device_event_cross_check.2 "radar" (by decide) "motion_detected"
      (by decide)) (by decide)).2⟩

/-- Helper: a character with a base64 sextet value is in the base64
alphabet. -/
theorem b64Index_isB64Char (c : Char) (n : Nat) (h : b64Index c = some n) :
    isB64Char c = true := by
  unfold b64Index at h
  unfold isB64Char
  split_ifs at h with h1 h2 h3 h4 h5
  all_goals simp_all

/-- Helper: every character of a string accepted by
`b64decodeList` is in the base64 alphabet or is the padding `=`. -/
theorem b64decodeList_chars : ∀ (l : List Char) (bs : List Nat),
    b64decodeList l = some bs → ∀ c ∈ l, isB64Char c = true ∨ c = '='
  | [] => by intro bs h c hc; cases hc
  | [a] => by intro bs h c hc; simp [b64decodeList] at h
  | [a, b] => by intro bs h c hc; simp [b64decodeList] at h
  | [a, b, d] => by intro bs h c hc; simp [b64decodeList] at h
  | c1 :: c2 :: c3 :: c4 :: rest => by
    intro bs h c hc
    simp only [b64decodeList] at h
    cases hi1 : b64Index c1 with
    | none => rw [hi1] at h; simp at h
    | some a =>
      rw [hi1] at h
      cases hi2 : b64Index c2 with
      | none => rw [hi2] at h; simp at h
      | some b2 =>
        rw [hi2] at h
        dsimp only at h
        by_cases h3 : (c3 == '=') = true
        · rw [if_pos h3] at h
          by_cases h4 : ((c4 == '=') && rest.isEmpty) = true
          · obtain ⟨hc4, hre⟩ : (c4 == '=') = true ∧ rest.isEmpty = true := by
              simpa using h4
            have hrnil : rest = [] := by
              cases rest with
              | nil => rfl
              | cons x t => simp at hre
            subst hrnil
            simp only [List.mem_cons, List.not_mem_nil, or_false] at hc
            rcases hc with rfl | rfl | rfl | rfl
            · exact Or.inl (b64Index_isB64Char c a hi1)
            · exact Or.inl (b64Index_isB64Char c b2 hi2)
            · exact Or.inr (by simpa using h3)
            · exact Or.inr (by simpa using hc4)
          · rw [if_neg h4] at h; simp at h
        · rw [if_neg h3] at h
          cases hi3 : b64Index c3 with
          | none => rw [hi3] at h; simp at h
          | some x =>
            rw [hi3] at h
            dsimp only at h
            by_cases h4 : (c4 == '=') = true
            · rw [if_pos h4] at h
              by_cases hre : rest.isEmpty = true
              · have hrnil : rest = [] := by
                  cases rest with
                  | nil => rfl
                  | cons y t => simp at hre
                subst hrnil
                simp only [List.mem_cons, List.not_mem_nil, or_false] at hc
                rcases hc with rfl | rfl | rfl | rfl
                · exact Or.inl (b64Index_isB64Char c a hi1)
                · exact Or.inl (b64Index_isB64Char c b2 hi2)
                · exact Or.inl (b64Index_isB64Char c x hi3)
                · exact Or.inr (by simpa using h4)
              · rw [if_neg hre] at h; simp at h
            · rw [if_neg h4] at h
              cases hi4 : b64Index c4 with
              | none => rw [hi4] at h; simp at h
              | some y =>
                rw [hi4] at h
                dsimp only at h
                cases hrec : b64decodeList rest with
                | none => rw [hrec] at h; simp at h
                | some tail =>
                  simp only [List.mem_cons] at hc
                  rcases hc with rfl | rfl | rfl | rfl | hmem
                  · exact Or.inl (b64Index_isB64Char c a hi1)
                  · exact Or.inl (b64Index_isB64Char c b2 hi2)
                  · exact Or.inl (b64Index_isB64Char c x hi3)
                  · exact Or.inl (b64Index_isB64Char c y hi4)
                  · exact b64decodeList_chars rest tail hrec c hmem

/-- Helper: a string that both matches the Python regex (with its
trailing-newline tolerance) and decodes successfully in fact matches the
strict shape: its decodable characters exclude the newline. -/
theorem strictB64Shape_of_decode (v : String) (bs : List Nat)
    (hdec : b64decodeList v.toList = some bs)
    (hpm : pyFullMatchB64 v = true) : strictB64Shape v = true := by
  cases hstrict : strictB64Shape v with
  | true => rfl
  | false =>
    unfold pyFullMatchB64 at hpm
    rw [hstrict] at hpm
    simp only [Bool.false_or] at hpm
    cases hlast : v.toList.getLast? with
    | none => rw [hlast] at hpm; cases hpm
    | some c =>
      rw [hlast] at hpm
      have hc : c = '\n' := by
        have hpm2 : (c == '\n') = true ∧
            strictB64Shape (String.mk v.toList.dropLast) = true := by
          simpa using hpm
        simpa using hpm2.1
      have happ : v.toList.dropLast ++ [c] = v.toList :=
        List.dropLast_append_getLast? c (by rw [Option.mem_def, hlast])
      have hmem : c ∈ v.toList := by
        rw [← happ]
        exact List.mem_append.mpr (Or.inr (by simp))
      rcases b64decodeList_chars v.toList bs hdec c hmem with hb | hb
      · rw [hc] at hb; exact absurd hb (by decide)
      · rw [hc] at hb; exact absurd hb (by decide)

/-- Claim C9: the photo validator accepts a string iff its length is at
least 37, it is a run of base64 alphabet characters with at most two
trailing `=`, its length is a multiple of four, it base64-decodes
successfully, the decoded bytes start with a known image signature, and the
decoded size is at most 5 MiB; in particular 40 `A`s — syntactically valid
base64 decoding to thirty zero bytes — are rejected as not an image. -/
theorem c9_photo_validator_characterization :
    (∀ v : String, (∃ r, validate_photo_base64 v = .ok r) ↔
      (37 ≤ v.length ∧ strictB64Shape v = true ∧ v.length % 4 = 0 ∧
       ∃ bs, b64decodeList v.toList = some bs ∧
         startsWithImageHeader bs = true ∧ bs.length ≤ 5242880)) ∧
    validate_photo_base64 (String.mk (List.replicate 40 'A')) =
      .error "photo_base64 does not contain a valid image format" := by
  constructor
  · intro v
    constructor
    · rintro ⟨r, hok⟩
      unfold validate_photo_base64 at hok
      split_ifs at hok with h1 h2 h3
      cases hdec : b64decodeList v.toList with
        | none => rw [hdec] at hok; cases hok
        | some bs =>
          rw [hdec] at hok
          dsimp only at hok
          split_ifs at hok with h5 h6
          all_goals try cases hok
          have hpm : pyFullMatchB64 v = true := by
              cases hx : pyFullMatchB64 v with
              | true => rfl
              | false => exact absurd (by simp [hx]) h2
          refine ⟨by omega, strictB64Shape_of_decode v bs hdec hpm, ?_,
            bs, rfl, ?_, ?_⟩
          · simpa using h3
          · cases hx : startsWithImageHeader bs with
            | true => rfl
            | false => exact absurd (by simp [hx]) h5
          · omega
    · rintro ⟨hl, hs, hm, bs, hdec, hh, hsz⟩
      refine ⟨v, ?_⟩
      unfold validate_photo_base64
      rw [if_neg (by omega : ¬ v.length < 37)]
      rw [if_neg (show ¬ (!pyFullMatchB64 v) = true by
        simp [pyFullMatchB64, hs])]
      rw [if_neg (show ¬ (v.length % 4 != 0) = true by simp [hm])]
      rw [hdec]
      dsimp only
      rw [if_neg (show ¬ (!startsWithImageHeader bs) = true by simp [hh])]
      rw [if_neg (by omega : ¬ 5242880 < bs.length)]
  · rfl

/-- Claim C9 (witness): the 40-character base64 string beginning `Qk0A`
decodes to thirty bytes starting with the BMP signature and is accepted by
the validator. -/
theorem c9_photo_validator_characterization_witness :
    ∃ r, validate_photo_base64
      (String.mk ('Q' :: 'k' :: '0' :: List.replicate 37 'A')) = .ok r :=
  (c9_photo_validator_characterization.1
    (String.mk ('Q' :: 'k' :: '0' :: List.replicate 37 'A'))).mpr
    ⟨by decide, by decide, by decide, 66 :: 77 :: List.replicate 28 0,
      by decide, by decide, by decide⟩
